import Mathlib

/-!
Shallow embedding of the label widget in
`src/js/lib/famous-web-components/controls/UILabel.js`.

The widget owns one child element (`UIElement`) wrapping a platform
surface.  `UIElement` and `UIComponent` are collaborators that are not in
the source tree; the definitions below that concern them carry a doc
comment starting with `Modelled from the spec:` and follow the narrow
contract the spec states for them (setters record the given value,
getters read it back).  Everything on `UILabel` itself is translated
directly from the source file.
-/

namespace UILabelSpec

/-- A JavaScript size entry as the widget uses it: the literal `true`
(auto-measure), `undefined`, or a pixel number. -/
inductive SizeVal where
  | auto : SizeVal
  | undef : SizeVal
  | px : Nat → SizeVal
  deriving DecidableEq, Repr

/-- Modelled from the spec: the platform surface behind the child element.
The source only touches its `_contentDirty` staleness flag and its
`setSize` request, so only those are carried. -/
structure Surface where
  contentDirty : Bool
  size : List SizeVal
  deriving DecidableEq, Repr

/-- Modelled from the spec: `Surface.setSize` records the size request. -/
def Surface.setSize (sf : Surface) (s : List SizeVal) : Surface :=
  { sf with size := s }

/-- Modelled from the spec: the child element wrapper (`UIElement`, not in
the source tree) holds content, CSS classes, an inline style map, its own
size request, and the platform surface. -/
structure UIElement where
  content : Option String
  classes : List String
  style : List (String × String)
  size : List SizeVal
  surface : Surface
  deriving DecidableEq, Repr

/-- Modelled from the spec: `UIElement.setSize` records the size request
on the child element wrapper. -/
def UIElement.setSize (e : UIElement) (s : List SizeVal) : UIElement :=
  { e with size := s }

/-- Modelled from the spec: `UIElement.setContent` records the content. -/
def UIElement.setContent (e : UIElement) (c : Option String) : UIElement :=
  { e with content := c }

/-- Modelled from the spec: `UIElement.getContent` reads the content. -/
def UIElement.getContent (e : UIElement) : Option String :=
  e.content

/-- Modelled from the spec: `UIElement.setClasses` records the class list. -/
def UIElement.setClasses (e : UIElement) (c : List String) : UIElement :=
  { e with classes := c }

/-- Modelled from the spec: `UIElement.setStyle` records the style map. -/
def UIElement.setStyle (e : UIElement) (st : List (String × String)) : UIElement :=
  { e with style := st }

/-- Modelled from the spec: `UIElement.getStyle` reads the style map. -/
def UIElement.getStyle (e : UIElement) : List (String × String) :=
  e.style

/-- Constructor options of `UILabel` (`text`, `classes`, `style`, and the
optional explicit `size`). -/
structure Options where
  text : Option String
  classes : List String
  style : List (String × String)
  size : Option (List SizeVal)
  deriving DecidableEq, Repr

/-- State of a `UILabel` instance: `_size` (the measured pixel pair,
initialised to the empty array), `_measuredSize`, `_text`, the owned
child `_element`, and the value held by the `_sizeState` modifier that
the deploy callback updates. -/
structure UILabel where
  size : List Nat
  measuredSize : Bool
  text : Option String
  element : UIElement
  sizeState : List Nat
  deriving DecidableEq, Repr

/-- `new UILabel(options)`: `_size = []`;
`_measuredSize = this.options.size ? false : true`; `_text = options.text`;
the child element is created with the text as content plus the given
classes and style, is set to auto size `[true, true]`, and, when an
explicit `options.size` is present, that size is then set on it. -/
def UILabel.new (o : Options) : UILabel :=
  let e0 : UIElement :=
    { content := o.text
      classes := o.classes
      style := o.style
      size := []
      surface := { contentDirty := false, size := [] } }
  let e1 := e0.setSize [SizeVal.auto, SizeVal.auto]
  let e2 := match o.size with
    | some s => e1.setSize s
    | none => e1
  { size := []
    measuredSize := o.size.isNone
    text := o.text
    element := e2
    sizeState := [] }

/-- JavaScript array index assignment `a[i] = v`: overwrite when `i` is in
range, otherwise extend up to index `i` (for the indices 0 then 1 that
`_readSize` uses, no padding is ever needed). -/
def jsSetIdx (xs : List Nat) (i v : Nat) : List Nat :=
  if i < xs.length then xs.set i v
  else xs ++ List.replicate (i - xs.length) 0 ++ [v]

/-- `_readSize`: `this._size[0] = clientWidth; this._size[1] = clientHeight`
with the platform-reported dimensions. -/
def UILabel.readSize (l : UILabel) (w h : Nat) : UILabel :=
  { l with size := jsSetIdx (jsSetIdx l.size 0 w) 1 h }

/-- `_invalidateSurface`: `this._element._surface._contentDirty = true`. -/
def UILabel.invalidateSurface (l : UILabel) : UILabel :=
  { l with element :=
      { l.element with surface := { l.element.surface with contentDirty := true } } }

/-- `getSize`: `return this._size.slice(0)` — a copy of the stored pair;
the label state is untouched. -/
def UILabel.getSize (l : UILabel) : List Nat × UILabel :=
  (l.size, l)

/-- `setSize(size)`: invalidate the surface, set the surface size to
`[undefined, undefined]`, set the element size to the given pair, and
clear `_measuredSize`. -/
def UILabel.setSize (l : UILabel) (s : List SizeVal) : UILabel :=
  let l1 := l.invalidateSurface
  let l2 := { l1 with element :=
      { l1.element with surface :=
          l1.element.surface.setSize [SizeVal.undef, SizeVal.undef] } }
  let l3 := { l2 with element := l2.element.setSize s }
  { l3 with measuredSize := false }

/-- `setAutoSize()`: early return when `_measuredSize` already holds,
otherwise invalidate the surface, set the surface size to `[true, true]`,
and set `_measuredSize`. -/
def UILabel.setAutoSize (l : UILabel) : UILabel :=
  if l.measuredSize then l
  else
    let l1 := l.invalidateSurface
    let l2 := { l1 with element :=
        { l1.element with surface :=
            l1.element.surface.setSize [SizeVal.auto, SizeVal.auto] } }
    { l2 with measuredSize := true }

/-- `setClasses(classList)`: invalidate the surface and forward to the
element. -/
def UILabel.setClasses (l : UILabel) (c : List String) : UILabel :=
  let l1 := l.invalidateSurface
  { l1 with element := l1.element.setClasses c }

/-- `setStyle(style)`: invalidate the surface and forward to the element. -/
def UILabel.setStyle (l : UILabel) (st : List (String × String)) : UILabel :=
  let l1 := l.invalidateSurface
  { l1 with element := l1.element.setStyle st }

/-- `getStyle()`: `return this._element.getStyle()`; the label state is
untouched. -/
def UILabel.getStyle (l : UILabel) : List (String × String) × UILabel :=
  (l.element.getStyle, l)

/-- `setText(text)`: store the text, invalidate the surface, forward the
content to the element. -/
def UILabel.setText (l : UILabel) (t : String) : UILabel :=
  let l1 := { l with text := some t }
  let l2 := l1.invalidateSurface
  { l2 with element := l2.element.setContent (some t) }

/-- `getText()`: `return this._text`; the label state is untouched. -/
def UILabel.getText (l : UILabel) : Option String × UILabel :=
  (l.text, l)

/-- Outcome of one run of the deploy callback: the resulting label state,
the payloads of the `sizeChange` notifications emitted during the run,
and how many times `setContent` was applied to the element. -/
structure DeployResult where
  label : UILabel
  events : List UILabel
  contentWrites : Nat
  deriving DecidableEq, Repr

/-- The deploy callback bound in `_bindEvents`, run with the
platform-reported `clientWidth` and `clientHeight`: `_readSize`, then
`_sizeState.set(this._size)`, then re-apply `_text` to the element when
`getContent() !== _text`, then emit one `sizeChange` carrying the label
itself. -/
def UILabel.deploy (l : UILabel) (w h : Nat) : DeployResult :=
  let l1 := l.readSize w h
  let l2 := { l1 with sizeState := l1.size }
  if l2.element.getContent ≠ l2.text then
    let l3 := { l2 with element := l2.element.setContent l2.text }
    { label := l3, events := [l3], contentWrites := 1 }
  else
    { label := l2, events := [l2], contentWrites := 0 }

/-- One externally triggered operation on a constructed label. -/
inductive Op where
  | opSetSize : List SizeVal → Op
  | opSetAutoSize : Op
  | opSetText : String → Op
  | opSetClasses : List String → Op
  | opSetStyle : List (String × String) → Op
  | opDeploy : Nat → Nat → Op
  deriving DecidableEq, Repr

/-- Apply one operation to a label state. -/
def UILabel.applyOp (l : UILabel) (op : Op) : UILabel :=
  match op with
  | Op.opSetSize s => l.setSize s
  | Op.opSetAutoSize => l.setAutoSize
  | Op.opSetText t => l.setText t
  | Op.opSetClasses c => l.setClasses c
  | Op.opSetStyle st => l.setStyle st
  | Op.opDeploy w h => (l.deploy w h).label

/-- Apply a sequence of operations. -/
def runOps (l : UILabel) (ops : List Op) : UILabel :=
  ops.foldl UILabel.applyOp l

/-- A label constructed with `o` and then driven through `ops`: every
reachable label state arises this way. -/
def run (o : Options) (ops : List Op) : UILabel :=
  runOps (UILabel.new o) ops

/-- The measured-size flag dictated by the words of the spec: starting
from `true` exactly when construction had no explicit size, the flag is
`false` after `setSize`, `true` after `setAutoSize`, and untouched by
every other operation.  This definition follows the spec sentence, not
the code; the invariant theorem compares the two. -/
def measuredAfter (b : Bool) (ops : List Op) : Bool :=
  ops.foldl
    (fun b op =>
      match op with
      | Op.opSetSize _ => false
      | Op.opSetAutoSize => true
      | _ => b)
    b

/-- Sample options without an explicit size, used by concrete witnesses. -/
def sampleOptions : Options :=
  { text := some "hi", classes := [], style := [], size := none }

/-- Sample options with the explicit size `[100, 50]`. -/
def sampleOptionsSized : Options :=
  { text := some "hi", classes := [], style := [],
    size := some [SizeVal.px 100, SizeVal.px 50] }

/-- Sample constructed label for the concrete witnesses. -/
def sampleLabel : UILabel :=
  UILabel.new sampleOptions

/- ------------------------------------------------------------------ -/
/- Helper lemmas                                                       -/
/- ------------------------------------------------------------------ -/

/-- The deploy callback stores the platform pair through the JS index
assignments of `_readSize`, in both branches of the content check. -/
theorem deploy_label_size (l : UILabel) (w h : Nat) :
    (l.deploy w h).label.size = jsSetIdx (jsSetIdx l.size 0 w) 1 h := by
  by_cases hc : l.element.content = l.text <;>
    simp [UILabel.deploy, UILabel.readSize, UIElement.getContent, hc]

/-- On an array of length at most two, the two JS index assignments of
`_readSize` yield exactly the pair `[w, h]`. -/
theorem jsSetIdx_pair (xs : List Nat) (hxs : xs.length ≤ 2) (w h : Nat) :
    jsSetIdx (jsSetIdx xs 0 w) 1 h = [w, h] := by
  rcases xs with _ | ⟨a, _ | ⟨b, _ | ⟨c, t⟩⟩⟩
  · rfl
  · rfl
  · rfl
  · simp at hxs

theorem setSize_measured (l : UILabel) (s : List SizeVal) :
    (l.setSize s).measuredSize = false := rfl

theorem setAutoSize_measured (l : UILabel) :
    (l.setAutoSize).measuredSize = true := by
  by_cases h : l.measuredSize <;> simp [UILabel.setAutoSize, h]

theorem deploy_measured (l : UILabel) (w h : Nat) :
    (l.deploy w h).label.measuredSize = l.measuredSize := by
  by_cases hc : l.element.content = l.text <;>
    simp [UILabel.deploy, UILabel.readSize, UIElement.getContent, hc]

/-- Generalised invariant: running any operation sequence transforms the
flag exactly as the spec-side `measuredAfter` predicts. -/
theorem runOps_measuredSize (ops : List Op) : ∀ l : UILabel,
    (runOps l ops).measuredSize = measuredAfter l.measuredSize ops := by
  induction ops with
  | nil => intro l; rfl
  | cons op t ih =>
    intro l
    cases op with
    | opSetSize s =>
      simpa [runOps, measuredAfter, UILabel.applyOp, setSize_measured]
        using ih (l.setSize s)
    | opSetAutoSize =>
      have h := ih l.setAutoSize
      simpa [runOps, measuredAfter, UILabel.applyOp, setAutoSize_measured]
        using h
    | opSetText s =>
      simpa [runOps, measuredAfter, UILabel.applyOp] using ih (l.setText s)
    | opSetClasses c =>
      simpa [runOps, measuredAfter, UILabel.applyOp] using ih (l.setClasses c)
    | opSetStyle st =>
      simpa [runOps, measuredAfter, UILabel.applyOp] using ih (l.setStyle st)
    | opDeploy w h =>
      have h2 := ih (l.deploy w h).label
      simpa [runOps, measuredAfter, UILabel.applyOp, deploy_measured]
        using h2

/- ------------------------------------------------------------------ -/
/- Claim theorems                                                      -/
/- ------------------------------------------------------------------ -/

/-- Claim C1: for every label (whose `_size` array is, as in every
reachable state, empty or a pair) and a deploy event reporting surface
dimensions `(120, 40)`, after the callback runs `getSize()` returns
`[120, 40]`, and the callback emits exactly one `sizeChange` whose
payload is the label instance itself. -/
theorem C1_deploy_size_and_event (l : UILabel) (hl : l.size.length ≤ 2) :
    ((l.deploy 120 40).label.getSize).1 = [120, 40] ∧
    (l.deploy 120 40).events = [(l.deploy 120 40).label] := by
  constructor
  · show (l.deploy 120 40).label.size = [120, 40]
    rw [deploy_label_size]
    exact jsSetIdx_pair l.size hl 120 40
  · simp only [UILabel.deploy]
    split <;> rfl

theorem C1_deploy_size_and_event_witness :
    sampleLabel.size.length ≤ 2 ∧
    (((sampleLabel.deploy 120 40).label.getSize).1 = [120, 40] ∧
     (sampleLabel.deploy 120 40).events = [(sampleLabel.deploy 120 40).label]) :=
  ⟨by decide, C1_deploy_size_and_event sampleLabel (by decide)⟩

/-- Claim C2: over every construction and every operation sequence, the
`_measuredSize` flag of the resulting label equals the flag dictated by
the spec sentence (`measuredAfter`): it is `true` iff the last
size-affecting operation was `setAutoSize`, or construction happened
without an explicit size and neither `setSize` nor `setAutoSize` followed. -/
theorem C2_measuredSize_invariant (o : Options) (ops : List Op) :
    (run o ops).measuredSize = measuredAfter o.size.isNone ops :=
  runOps_measuredSize ops (UILabel.new o)

/-- Claim C3: `setSize` with any explicit pair leaves the stored `_size`
field — and hence the value `getSize()` returns — unchanged until the
next deploy, while the explicit pair is recorded on the child element. -/
theorem C3_setSize_defers (l : UILabel) (p : List SizeVal) :
    ((l.setSize p).getSize).1 = (l.getSize).1 ∧
    (l.setSize p).element.size = p :=
  ⟨rfl, rfl⟩

/-- Claim C4: `setAutoSize` twice in a row is idempotent — the second
call returns early and leaves the entire state (surface staleness flag
and size included) identical to the state after the first call. -/
theorem C4_setAutoSize_idem (l : UILabel) :
    (l.setAutoSize).setAutoSize = l.setAutoSize := by
  by_cases h : l.measuredSize <;> simp [UILabel.setAutoSize, h]

/-- Claim C5: `setText s` followed by `getText()` returns the stored
string `s` immediately, before any deploy cycle. -/
theorem C5_setText_getText (l : UILabel) (s : String) :
    ((l.setText s).getText).1 = some s :=
  rfl

/-- Claim C6: during one deploy callback, the stored text is re-applied
to the element exactly once when the element content differs from it at
that time, and zero times when they already agree; afterwards the
element content equals the stored text. -/
theorem C6_deploy_content (l : UILabel) (w h : Nat) :
    (l.deploy w h).contentWrites
      = (if l.element.getContent = l.text then 0 else 1) ∧
    (l.deploy w h).label.element.getContent = l.text := by
  by_cases hc : l.element.content = l.text <;>
    simp [UILabel.deploy, UILabel.readSize, UIElement.setContent,
      UIElement.getContent, hc]

/-- Claim C7: construction with an explicit size option yields
`_measuredSize = false` and records the given pair on the child element;
construction without a size option yields `_measuredSize = true`. -/
theorem C7_construct (o : Options) :
    (∀ p, o.size = some p →
      (UILabel.new o).measuredSize = false ∧
      (UILabel.new o).element.size = p) ∧
    (o.size = none → (UILabel.new o).measuredSize = true) := by
  constructor
  · intro p hp
    constructor
    · simp [UILabel.new, hp]
    · simp [UILabel.new, UIElement.setSize, hp]
  · intro hp
    simp [UILabel.new, hp]

theorem C7_construct_witness :
    ((UILabel.new sampleOptionsSized).measuredSize = false ∧
     (UILabel.new sampleOptionsSized).element.size
       = [SizeVal.px 100, SizeVal.px 50]) ∧
    (UILabel.new sampleOptions).measuredSize = true :=
  ⟨(C7_construct sampleOptionsSized).1 [SizeVal.px 100, SizeVal.px 50] rfl,
   (C7_construct sampleOptions).2 rfl⟩

/-- Claim C8: `getSize()` returns a copy equal to the stored `_size`
pair, leaves the label state unchanged, and two consecutive calls return
equal pairs. -/
theorem C8_getSize_copy (l : UILabel) :
    (l.getSize).1 = l.size ∧
    (l.getSize).2 = l ∧
    (((l.getSize).2.getSize)).1 = (l.getSize).1 :=
  ⟨rfl, rfl, rfl⟩

/-- Claim C9: immediately after construction — even with an explicit size
option — `getSize()` returns the empty array, because `_size` is
initialised to `[]` and only the deploy callback fills it. -/
theorem C9_new_size_empty (o : Options) :
    ((UILabel.new o).getSize).1 = [] :=
  rfl

/-- Claim C10: the read-only operations `getText()` and `getStyle()`
leave the whole label state — the surface `_contentDirty` flag in
particular — unchanged. -/
theorem C10_getters_pure (l : UILabel) :
    (l.getText).2 = l ∧
    (l.getStyle).2 = l ∧
    (l.getText).2.element.surface.contentDirty = l.element.surface.contentDirty ∧
    (l.getStyle).2.element.surface.contentDirty = l.element.surface.contentDirty :=
  ⟨rfl, rfl, rfl, rfl⟩

end UILabelSpec
